import Mathlib

/-!
Verification of the role/extra-profile logic of the `accounts` app
(`accounts/models.py`): the `normalize_types` classmethod, the
`post_save_user_types_handler` reconciler, `User.save` / `User.clean`,
the proxy views (`Teacher.save`, the `more` accessors) and the
`UserManager.create_superuser` factory, shallowly embedded as pure
Lean functions over explicit state.
-/

namespace Accounts

/-- The fixed role enumeration `User.TypesChoices` of `accounts/models.py`
(declaration order: TEACHER, STUDENT, GUARDIAN, COMMITTEE, STAFF). -/
inductive TypesChoices where
  | TEACHER
  | STUDENT
  | GUARDIAN
  | COMMITTEE
  | STAFF
deriving DecidableEq, Repr, Fintype

/-- The string code of a role, i.e. the `.value` of the `TextChoices` member.
Django `TextChoices` members compare equal to their value string, so every
comparison `instance.TypesChoices.X in instance.types` in the source is a
string-membership test against this value. -/
def TypesChoices.value : TypesChoices → String
  | .TEACHER => "TEACHER"
  | .STUDENT => "STUDENT"
  | .GUARDIAN => "GUARDIAN"
  | .COMMITTEE => "COMMITTEE"
  | .STAFF => "STAFF"

/-- The valid role-code set `set([t for t, _ in User.TypesChoices.choices])`
of `normalize_types`, in declaration order. -/
def validTypes : List String :=
  ["TEACHER", "STUDENT", "GUARDIAN", "COMMITTEE", "STAFF"]

/-- Lexicographic comparison of character lists by code point; this is the
order Python uses to compare `str` values, restricted to the ASCII codes
appearing here. -/
def charListLe : List Char → List Char → Bool
  | [], _ => true
  | _ :: _, [] => false
  | a :: as, b :: bs =>
      if a < b then true
      else if a = b then charListLe as bs
      else false

/-- Python string comparison `a <= b` (lexicographic by code point). -/
def strLe (a b : String) : Bool :=
  charListLe a.data b.data

/-- Insert a string into a list kept in `strLe` order. -/
def insertSorted (x : String) : List String → List String
  | [] => [x]
  | y :: ys => if strLe x y then x :: y :: ys else y :: insertSorted x ys

/-- Insertion sort by `strLe`; models `list.sort()` on Python strings. -/
def sortStrings : List String → List String
  | [] => []
  | x :: xs => insertSorted x (sortStrings xs)

/-- A Python value passed as the `types` argument of `normalize_types`.
`pyList` and `pySet` carry the elements of a `list` / `set` argument;
`other` stands for any value that is neither a `list` nor a `set`
(e.g. `None`, a `str`, an `int`). -/
inductive TypesArg where
  | pyList : List String → TypesArg
  | pySet : List String → TypesArg
  | other : TypesArg

/-- Embedding of `BaseCommonUserManager.normalize_types` (models.py lines 22-36):
a non-list, non-set argument is replaced by the empty list, a set is
converted to a list, then the value is intersected with the valid role-code
set and the resulting distinct codes are sorted. The intersection is
computed by walking the valid-code set, and the final `sort()` makes the
unspecified Python set-iteration order irrelevant. -/
def normalize_types (types : TypesArg) : List String :=
  let typesList : List String :=
    match types with
    | .other => []
    | .pySet s => s
    | .pyList l => l
  let typesSetValidated := validTypes.filter (fun t => decide (t ∈ typesList))
  sortStrings typesSetValidated

/-- Specialization of `normalize_types` to a `list` argument, the shape every call
site in the source passes. -/
def normalizeList (l : List String) : List String :=
  normalize_types (TypesArg.pyList l)

/-- The valid role codes in `strLe` order: the value `sorted()` produces
from the full valid set. -/
def sortedValidTypes : List String :=
  ["COMMITTEE", "GUARDIAN", "STAFF", "STUDENT", "TEACHER"]

/-- Database key of a User row; extra-profile rows are keyed by the owning
user through their one-to-one `user` foreign key. -/
abbrev UserId := Nat

/-- The five extra-profile tables (TeacherMore, StudentMore, GuardianMore,
CommitteeMore, StaffMore). Each table is the list of its rows, a row being
represented by the id of its owning user; the nullable payload columns
(designation, level, occupation) play no role in any claim and are
omitted. -/
structure DB where
  teacherMore : List UserId
  studentMore : List UserId
  guardianMore : List UserId
  committeeMore : List UserId
  staffMore : List UserId
deriving DecidableEq, Repr

/-- The database with all five extra-profile tables empty. -/
def emptyDB : DB := ⟨[], [], [], [], []⟩

/-- The extra-profile table of a given role. -/
def DB.moreTable (db : DB) : TypesChoices → List UserId
  | .TEACHER => db.teacherMore
  | .STUDENT => db.studentMore
  | .GUARDIAN => db.guardianMore
  | .COMMITTEE => db.committeeMore
  | .STAFF => db.staffMore

/-- Replace the extra-profile table of a given role. -/
def DB.setTable (db : DB) (r : TypesChoices) (l : List UserId) : DB :=
  match r with
  | .TEACHER => { db with teacherMore := l }
  | .STUDENT => { db with studentMore := l }
  | .GUARDIAN => { db with guardianMore := l }
  | .COMMITTEE => { db with committeeMore := l }
  | .STAFF => { db with staffMore := l }

/-- Embedding of `XMore.objects.create(user=instance)`: unconditionally insert a new row
for the user into the role table. -/
def createMoreRow (uid : UserId) (db : DB) (r : TypesChoices) : DB :=
  db.setTable r (db.moreTable r ++ [uid])

/-- Embedding of `XMore.objects.update_or_create(user=instance)`: if a row for the user
exists it is kept (no field defaults are passed, so nothing about it
changes in this model), otherwise a new row is inserted. -/
def update_or_create (uid : UserId) (db : DB) (r : TypesChoices) : DB :=
  if uid ∈ db.moreTable r then db else createMoreRow uid db r

/-- The body of the `for user_type in added_types_set` loop of
`post_save_user_types_handler` (models.py lines 409-424): dispatch on the
role code and upsert the matching extra-profile row; a string matching no
role code falls through all branches and does nothing. -/
def addedDispatch (uid : UserId) (t : String) (db : DB) : DB :=
  if t = TypesChoices.TEACHER.value then update_or_create uid db .TEACHER
  else if t = TypesChoices.STUDENT.value then update_or_create uid db .STUDENT
  else if t = TypesChoices.GUARDIAN.value then update_or_create uid db .GUARDIAN
  else if t = TypesChoices.COMMITTEE.value then update_or_create uid db .COMMITTEE
  else if t = TypesChoices.STAFF.value then update_or_create uid db .STAFF
  else db

/-- The body of the `for user_type in removed_types_set` loop of
`post_save_user_types_handler` (models.py lines 429-464): every branch only
performs a `get` on the matching table, swallows `DoesNotExist` with
`pass`, and mutates nothing, so the state is returned unchanged. -/
def removedDispatch (_uid : UserId) (_t : String) (db : DB) : DB :=
  db

/-- The creation branch of `post_save_user_types_handler` (models.py lines
372-390): one sequential `if` per role in declaration order, each
unconditionally creating the extra-profile row when the role code is
present in `instance.types`. -/
def createdBranch (uid : UserId) (types : List String) (db : DB) : DB :=
  let db1 := if TypesChoices.TEACHER.value ∈ types
    then createMoreRow uid db .TEACHER else db
  let db2 := if TypesChoices.STUDENT.value ∈ types
    then createMoreRow uid db1 .STUDENT else db1
  let db3 := if TypesChoices.GUARDIAN.value ∈ types
    then createMoreRow uid db2 .GUARDIAN else db2
  let db4 := if TypesChoices.COMMITTEE.value ∈ types
    then createMoreRow uid db3 .COMMITTEE else db3
  if TypesChoices.STAFF.value ∈ types
    then createMoreRow uid db4 .STAFF else db4

/-- Embedding of `added_types_set = current_types_set - previous_types_set` of models.py
line 401, as a duplicate-free list of codes. -/
def addedCodes (types previousTypes : List String) : List String :=
  types.dedup.filter (fun t => decide (t ∉ previousTypes.dedup))

/-- Embedding of `removed_types_set = previous_types_set - current_types_set` of
models.py line 400, as a duplicate-free list of codes. -/
def removedCodes (types previousTypes : List String) : List String :=
  previousTypes.dedup.filter (fun t => decide (t ∉ types.dedup))

/-- Embedding of `post_save_user_types_handler` (models.py lines 364-464). Here `created` is
the post_save flag; `types` is `instance.types` as saved (already
normalized by `User.save`); `previousTypes` is the value the field tracker
reports for `previous("types")`, with `None` encoded as the empty list, so
`has_changed` is the inequality of the two values. On creation with
non-empty `types` every present role gets a fresh row; on a change the
added codes are upserted and the removed codes are looked up without any
mutation. -/
def post_save_user_types_handler (uid : UserId) (created : Bool)
    (types previousTypes : List String) (db : DB) : DB :=
  if created then
    if types ≠ [] then createdBranch uid types db else db
  else if types ≠ previousTypes then
    let afterAdded := (addedCodes types previousTypes).foldl
      (fun d t => addedDispatch uid t d) db
    (removedCodes types previousTypes).foldl
      (fun d t => removedDispatch uid t d) afterAdded
  else db

/-- The User table paired with the extra-profile tables. A User row is its
id together with its persisted `types`; the remaining columns play no role
in the claims. -/
structure Store where
  users : List (UserId × List String)
  more : DB
deriving DecidableEq, Repr

/-- Look up the persisted `types` of a user row by id. -/
def lookupUser (uid : UserId) : List (UserId × List String) → Option (List String)
  | [] => none
  | (u, t) :: rest => if u = uid then some t else lookupUser uid rest

/-- Overwrite the persisted `types` of the row with the given id. -/
def updateUser (uid : UserId) (t : List String) :
    List (UserId × List String) → List (UserId × List String)
  | [] => []
  | (u, v) :: rest =>
      if u = uid then (uid, t) :: updateUser uid t rest
      else (u, v) :: updateUser uid t rest

/-- Embedding of `User.save` (models.py lines 238-242): `self.types` is renormalized
first, then `super().save()` persists the row — an INSERT when the id is
not stored yet (post_save fires with `created=True` and the tracker has no
previous value), an UPDATE otherwise (post_save fires with `created=False`
and `previous("types")` is the previously stored value). -/
def User.save (uid : UserId) (types : List String) (store : Store) : Store :=
  let t := normalizeList types
  match lookupUser uid store.users with
  | some prev =>
      { users := updateUser uid t store.users,
        more := post_save_user_types_handler uid false t prev store.more }
  | none =>
      { users := store.users ++ [(uid, t)],
        more := post_save_user_types_handler uid true t [] store.more }

/-- Embedding of `User.clean` (models.py lines 234-236): validation renormalizes
`self.types` (the inherited email normalization is outside the claims);
the function returns the value `self.types` holds afterwards. -/
def User.clean (types : List String) : List String :=
  normalizeList types

/-- Embedding of `Teacher.save` (models.py lines 277-285). With falsy (empty) `types`
the instance is tagged with the TEACHER code and saved. With a non-empty
list lacking the TEACHER code, the tagging expression
`list(set(self.types) + set([...TEACHER.value]))` raises `TypeError`
(`+` is not defined on Python sets) before `super().save()` runs, so
nothing is persisted. Otherwise `super().save()` runs with `types`
unchanged. -/
def Teacher.save (uid : UserId) (types : List String) (store : Store) :
    Except String Store :=
  if types = [] then
    .ok (User.save uid [TypesChoices.TEACHER.value] store)
  else if TypesChoices.TEACHER.value ∉ types then
    .error "TypeError: unsupported operand types for +: set and set"
  else
    .ok (User.save uid types store)

/-- Embedding of `BaseCommonUserManager._create_user` (models.py lines 38-50): an empty
username raises `ValueError` before anything is written; otherwise the new
user instance is built and saved. `uid` is the id the database assigns to
the new row; `types` comes through `extra_fields` and defaults to the
empty list. -/
def _create_user (username : String) (uid : UserId) (types : List String)
    (store : Store) : Except String Store :=
  if username = "" then .error "The given username must be set"
  else .ok (User.save uid types store)

/-- Embedding of `UserManager.create_superuser` (models.py lines 92-102): the flags `is_staff` and
`is_superuser` default to `True` via `setdefault` (`none` means the caller
did not pass the flag); any value other than `True` raises `ValueError`
before `_create_user` is reached, so no row of any kind is written. -/
def create_superuser (username : String) (uid : UserId)
    (is_staff is_superuser : Option Bool) (types : List String)
    (store : Store) : Except String Store :=
  let staffFlag := is_staff.getD true
  let superuserFlag := is_superuser.getD true
  if staffFlag ≠ true then .error "Superuser must have is_staff=True."
  else if superuserFlag ≠ true then .error "Superuser must have is_superuser=True."
  else _create_user username uid types store

/-- A row of an extra-profile table as reached through the reverse
one-to-one accessor of a User instance; the payload columns are irrelevant
to the claims, the owning user id identifies the row. -/
structure MoreRow where
  user : UserId
deriving DecidableEq, Repr

/-- The reverse one-to-one related objects of a User instance: field
`xmore` is `some row` exactly when the corresponding XMore row for this
user exists. -/
structure RelatedObjects where
  teachermore : Option MoreRow
  studentmore : Option MoreRow
  guardianmore : Option MoreRow
  committeemore : Option MoreRow
  staffmore : Option MoreRow
deriving DecidableEq, Repr

/-- Embedding of `Teacher.more` (models.py lines 257-259): returns `self.teachermore`. -/
def Teacher.more (rel : RelatedObjects) : Option MoreRow :=
  rel.teachermore

/-- Embedding of `Student.more` (models.py lines 297-299): the body evaluates
`self.studentmore` but has no `return` statement, so the property returns
`None` whatever the linked row is. -/
def Student.more (rel : RelatedObjects) : Option MoreRow :=
  let _ := rel.studentmore
  none

/-- Embedding of `Guardian.more` (models.py lines 314-316): returns `self.guardianmore`. -/
def Guardian.more (rel : RelatedObjects) : Option MoreRow :=
  rel.guardianmore

/-- Embedding of `Committee.more` (models.py lines 331-333): returns `self.committeemore`. -/
def Committee.more (rel : RelatedObjects) : Option MoreRow :=
  rel.committeemore

/-- Embedding of `Staff.more` (models.py lines 348-350): returns `self.staffmore`. -/
def Staff.more (rel : RelatedObjects) : Option MoreRow :=
  rel.staffmore

theorem normalizeList_eq_filter (l : List String) :
    normalizeList l = sortedValidTypes.filter (fun t => decide (t ∈ l)) := by
  by_cases h1 : ("TEACHER" : String) ∈ l <;>
  by_cases h2 : ("STUDENT" : String) ∈ l <;>
  by_cases h3 : ("GUARDIAN" : String) ∈ l <;>
  by_cases h4 : ("COMMITTEE" : String) ∈ l <;>
  by_cases h5 : ("STAFF" : String) ∈ l <;>
    simp [normalizeList, normalize_types, validTypes, sortedValidTypes,
      sortStrings, insertSorted, strLe, charListLe, h1, h2, h3, h4, h5]

theorem mem_sortedValidTypes_iff (x : String) :
    x ∈ sortedValidTypes ↔ x ∈ validTypes := by
  simp only [sortedValidTypes, validTypes, List.mem_cons, List.not_mem_nil,
    or_false]
  tauto

theorem mem_normalizeList (l : List String) (x : String) :
    x ∈ normalizeList l ↔ x ∈ l ∧ x ∈ validTypes := by
  rw [normalizeList_eq_filter, List.mem_filter]
  rw [mem_sortedValidTypes_iff]
  simp [and_comm]

theorem normalizeList_sorted (l : List String) :
    (normalizeList l).Pairwise (fun a b => strLe a b = true) := by
  rw [normalizeList_eq_filter]
  exact List.Pairwise.filter _ (by decide)

theorem normalizeList_nodup (l : List String) :
    (normalizeList l).Nodup := by
  rw [normalizeList_eq_filter]
  exact List.Nodup.filter _ (by decide)

theorem normalizeList_idem (l : List String) :
    normalizeList (normalizeList l) = normalizeList l := by
  conv_lhs => rw [normalizeList_eq_filter (normalizeList l)]
  conv_rhs => rw [normalizeList_eq_filter l]
  refine List.filter_congr ?_
  intro x hx
  have hv : x ∈ validTypes := (mem_sortedValidTypes_iff x).mp hx
  have hiff : x ∈ normalizeList l ↔ x ∈ l := by
    rw [mem_normalizeList]
    exact ⟨fun h => h.1, fun h => ⟨h, hv⟩⟩
  exact decide_eq_decide.mpr hiff

theorem moreTable_setTable (db : DB) (r r' : TypesChoices) (l : List UserId) :
    (db.setTable r l).moreTable r' = if r = r' then l else db.moreTable r' := by
  cases r <;> cases r' <;> simp [DB.setTable, DB.moreTable]

theorem DB.eq_of_tables (a b : DB) (h : ∀ r, a.moreTable r = b.moreTable r) :
    a = b := by
  cases a
  cases b
  simp only [DB.mk.injEq]
  exact ⟨h .TEACHER, h .STUDENT, h .GUARDIAN, h .COMMITTEE, h .STAFF⟩

theorem moreTable_createMoreRow_self (uid : UserId) (db : DB) (r : TypesChoices) :
    (createMoreRow uid db r).moreTable r = db.moreTable r ++ [uid] := by
  simp [createMoreRow, moreTable_setTable]

theorem moreTable_createMoreRow_ne (uid : UserId) (db : DB) {r r' : TypesChoices}
    (h : r ≠ r') : (createMoreRow uid db r).moreTable r' = db.moreTable r' := by
  simp [createMoreRow, moreTable_setTable, h]

theorem moreTable_uoc_self (uid : UserId) (db : DB) (r : TypesChoices) :
    (update_or_create uid db r).moreTable r =
      if uid ∈ db.moreTable r then db.moreTable r
      else db.moreTable r ++ [uid] := by
  unfold update_or_create
  split <;> simp [moreTable_createMoreRow_self, *]

theorem moreTable_uoc_ne (uid : UserId) (db : DB) {r r' : TypesChoices}
    (h : r ≠ r') : (update_or_create uid db r).moreTable r' = db.moreTable r' := by
  unfold update_or_create
  split
  · rfl
  · exact moreTable_createMoreRow_ne uid db h

theorem mem_uoc_self (uid : UserId) (db : DB) (r : TypesChoices) :
    uid ∈ (update_or_create uid db r).moreTable r := by
  rw [moreTable_uoc_self]
  split
  · assumption
  · simp

theorem addedDispatch_moreTable (uid : UserId) (t : String) (db : DB)
    (r : TypesChoices) :
    (addedDispatch uid t db).moreTable r =
      if t = r.value then (update_or_create uid db r).moreTable r
      else db.moreTable r := by
  cases r <;>
    simp only [addedDispatch, TypesChoices.value] <;>
    split_ifs <;>
    simp_all <;>
    exact moreTable_uoc_ne uid db (by decide)

theorem fold_removed_id (uid : UserId) (L : List String) (db : DB) :
    L.foldl (fun d t => removedDispatch uid t d) db = db := by
  induction L generalizing db with
  | nil => rfl
  | cons t L ih => exact ih db

theorem fold_added_moreTable (uid : UserId) (L : List String) (db : DB)
    (r : TypesChoices) :
    (L.foldl (fun d t => addedDispatch uid t d) db).moreTable r =
      if r.value ∈ L ∧ uid ∉ db.moreTable r then db.moreTable r ++ [uid]
      else db.moreTable r := by
  induction L generalizing db with
  | nil => simp
  | cons t L ih =>
    rw [List.foldl_cons, ih]
    by_cases ht : t = r.value
    · subst ht
      rw [addedDispatch_moreTable]
      simp only [if_pos rfl, moreTable_uoc_self]
      by_cases hmem : uid ∈ db.moreTable r
      · simp [hmem]
      · simp [hmem]
    · rw [addedDispatch_moreTable, if_neg ht]
      have : (r.value ∈ t :: L) ↔ (r.value ∈ L) := by
        simp [List.mem_cons]
        intro h
        exact absurd h.symm ht
      rw [if_congr (and_congr_left fun _ => this) rfl rfl]

theorem handler_update_eq (uid : UserId) (types previousTypes : List String)
    (db : DB) (h : types ≠ previousTypes) :
    post_save_user_types_handler uid false types previousTypes db =
      (addedCodes types previousTypes).foldl
        (fun d t => addedDispatch uid t d) db := by
  simp [post_save_user_types_handler, h, fold_removed_id]

theorem handler_update_moreTable (uid : UserId)
    (types previousTypes : List String) (db : DB) (r : TypesChoices)
    (h : types ≠ previousTypes) :
    (post_save_user_types_handler uid false types previousTypes db).moreTable r =
      if r.value ∈ addedCodes types previousTypes ∧ uid ∉ db.moreTable r
      then db.moreTable r ++ [uid]
      else db.moreTable r := by
  rw [handler_update_eq uid types previousTypes db h, fold_added_moreTable]

theorem mem_addedCodes (types previousTypes : List String) (t : String) :
    t ∈ addedCodes types previousTypes ↔ t ∈ types ∧ t ∉ previousTypes := by
  simp [addedCodes, List.mem_filter, List.mem_dedup]

theorem createdBranch_moreTable (uid : UserId) (types : List String) (db : DB)
    (r : TypesChoices) :
    (createdBranch uid types db).moreTable r =
      if r.value ∈ types then db.moreTable r ++ [uid] else db.moreTable r := by
  cases r <;>
    simp only [createdBranch, TypesChoices.value] <;>
    split_ifs <;>
    simp_all [createMoreRow, DB.setTable, DB.moreTable]

theorem handler_created_eq (uid : UserId) (types previousTypes : List String)
    (db : DB) (h : types ≠ []) :
    post_save_user_types_handler uid true types previousTypes db =
      createdBranch uid types db := by
  simp [post_save_user_types_handler, h]

theorem handler_update_idem (uid : UserId) (types previousTypes : List String)
    (db : DB) :
    post_save_user_types_handler uid false types previousTypes
        (post_save_user_types_handler uid false types previousTypes db) =
      post_save_user_types_handler uid false types previousTypes db := by
  by_cases h : types = previousTypes
  · simp [post_save_user_types_handler, h]
  · apply DB.eq_of_tables
    intro r
    rw [handler_update_moreTable uid types previousTypes _ r h,
      handler_update_moreTable uid types previousTypes db r h]
    by_cases hA : r.value ∈ addedCodes types previousTypes
    · by_cases hm : uid ∈ db.moreTable r
      · simp [hA, hm]
      · simp [hA, hm]
    · simp [hA]

theorem lookupUser_updateUser_self (uid : UserId) (t prev : List String)
    (us : List (UserId × List String)) (h : lookupUser uid us = some prev) :
    lookupUser uid (updateUser uid t us) = some t := by
  induction us with
  | nil => simp [lookupUser] at h
  | cons p rest ih =>
    obtain ⟨u, v⟩ := p
    by_cases hu : u = uid
    · subst hu
      simp [updateUser, lookupUser]
    · rw [lookupUser, if_neg hu] at h
      rw [updateUser, if_neg hu, lookupUser, if_neg hu]
      exact ih h

theorem lookupUser_append_self (uid : UserId) (t : List String)
    (us : List (UserId × List String)) (h : lookupUser uid us = none) :
    lookupUser uid (us ++ [(uid, t)]) = some t := by
  induction us with
  | nil => simp [lookupUser]
  | cons p rest ih =>
    obtain ⟨u, v⟩ := p
    by_cases hu : u = uid
    · subst hu
      simp [lookupUser] at h
    · rw [lookupUser, if_neg hu] at h
      simpa [lookupUser, hu] using ih h

theorem lookupUser_after_save (uid : UserId) (types : List String)
    (store : Store) :
    lookupUser uid (User.save uid types store).users =
      some (normalizeList types) := by
  unfold User.save
  cases h : lookupUser uid store.users with
  | some prev => exact lookupUser_updateUser_self uid _ prev store.users h
  | none => exact lookupUser_append_self uid _ store.users h

theorem User.save_of_lookup_some (uid : UserId) (types prev : List String)
    (store : Store) (h : lookupUser uid store.users = some prev) :
    User.save uid types store =
      { users := updateUser uid (normalizeList types) store.users,
        more := post_save_user_types_handler uid false (normalizeList types)
          prev store.more } := by
  unfold User.save
  rw [h]

/-- C1: upon creation of a User with non-empty `types`, the reconciler
creates exactly one extra-profile row per role code present in `types`,
linked to that user, and none for roles not present: starting from a state
holding no extra-profile row for the user, after the creation branch of
`post_save_user_types_handler` the number of rows for the user in the table
of role `r` is 1 when the code of `r` occurs in `types` and 0 otherwise. -/
theorem c1_create_one_row_per_role (uid : UserId)
    (types previousTypes : List String) (db : DB) (hne : types ≠ [])
    (hfresh : ∀ r : TypesChoices, (db.moreTable r).count uid = 0) :
    ∀ r : TypesChoices,
      ((post_save_user_types_handler uid true types previousTypes db).moreTable
          r).count uid =
        if r.value ∈ types then 1 else 0 := by
  intro r
  rw [handler_created_eq uid types previousTypes db hne, createdBranch_moreTable]
  split_ifs with h
  · simp [List.count_append, hfresh r]
  · exact hfresh r

/-- Witness for C1: creating user 1 with `types=["STUDENT","TEACHER"]` in
an empty database yields exactly one TeacherMore and one StudentMore row
for that user and no Guardian/Committee/Staff row. -/
theorem c1_witness :
    ((["STUDENT", "TEACHER"] : List String) ≠ []) ∧
    (∀ r : TypesChoices, (emptyDB.moreTable r).count 1 = 0) ∧
    (∀ r : TypesChoices,
      ((post_save_user_types_handler 1 true ["STUDENT", "TEACHER"] []
          emptyDB).moreTable r).count 1 =
        if r.value ∈ (["STUDENT", "TEACHER"] : List String) then 1 else 0) :=
  ⟨by decide, by decide,
    c1_create_one_row_per_role 1 ["STUDENT", "TEACHER"] [] emptyDB
      (by decide) (by decide)⟩

/-- C2: updating a user whose stored `types` is `["TEACHER"]` by saving
`types=["TEACHER","GUARDIAN"]` creates exactly one new GuardianMore row;
re-saving the same `types` afterwards leaves the count at one; and in
general re-running the update reconciliation for the same before/after
snapshot is idempotent, so it never creates a duplicate row for any
role. -/
theorem c2_guardian_upsert_idempotent (uid : UserId) (store : Store)
    (hu : lookupUser uid store.users = some ["TEACHER"])
    (hg : store.more.guardianMore.count uid = 0) :
    ((User.save uid ["TEACHER", "GUARDIAN"] store).more.guardianMore.count uid
      = 1) ∧
    ((User.save uid ["TEACHER", "GUARDIAN"]
        (User.save uid ["TEACHER", "GUARDIAN"] store)).more.guardianMore.count
      uid = 1) ∧
    (∀ (u : UserId) (t p : List String) (d : DB),
      post_save_user_types_handler u false t p
          (post_save_user_types_handler u false t p d) =
        post_save_user_types_handler u false t p d) := by
  have hnorm : normalizeList ["TEACHER", "GUARDIAN"] = ["GUARDIAN", "TEACHER"] := by
    decide
  have hmem : uid ∉ store.more.guardianMore := List.count_eq_zero.mp hg
  have hs1 : User.save uid ["TEACHER", "GUARDIAN"] store =
      { users := updateUser uid ["GUARDIAN", "TEACHER"] store.users,
        more := post_save_user_types_handler uid false ["GUARDIAN", "TEACHER"]
          ["TEACHER"] store.more } := by
    have h := User.save_of_lookup_some uid ["TEACHER", "GUARDIAN"] ["TEACHER"]
      store hu
    rwa [hnorm] at h
  have htab : (post_save_user_types_handler uid false ["GUARDIAN", "TEACHER"]
      ["TEACHER"] store.more).moreTable .GUARDIAN =
      store.more.moreTable .GUARDIAN ++ [uid] := by
    rw [handler_update_moreTable uid _ _ store.more .GUARDIAN (by decide)]
    exact if_pos ⟨by decide, hmem⟩
  have hcount1 : (User.save uid ["TEACHER", "GUARDIAN"]
      store).more.guardianMore.count uid = 1 := by
    rw [hs1]
    show ((post_save_user_types_handler uid false ["GUARDIAN", "TEACHER"]
      ["TEACHER"] store.more).moreTable .GUARDIAN).count uid = 1
    rw [htab]
    show (store.more.guardianMore ++ [uid]).count uid = 1
    simp [List.count_append, hg]
  refine ⟨hcount1, ?_, fun u t p d => handler_update_idem u t p d⟩
  have hlook1 : lookupUser uid
      (User.save uid ["TEACHER", "GUARDIAN"] store).users =
      some ["GUARDIAN", "TEACHER"] := by
    rw [lookupUser_after_save, hnorm]
  have hs2 : User.save uid ["TEACHER", "GUARDIAN"]
      (User.save uid ["TEACHER", "GUARDIAN"] store) =
      { users := updateUser uid ["GUARDIAN", "TEACHER"]
          (User.save uid ["TEACHER", "GUARDIAN"] store).users,
        more := post_save_user_types_handler uid false ["GUARDIAN", "TEACHER"]
          ["GUARDIAN", "TEACHER"]
          (User.save uid ["TEACHER", "GUARDIAN"] store).more } := by
    have h := User.save_of_lookup_some uid ["TEACHER", "GUARDIAN"]
      ["GUARDIAN", "TEACHER"] (User.save uid ["TEACHER", "GUARDIAN"] store)
      hlook1
    rwa [hnorm] at h
  rw [hs2]
  show (post_save_user_types_handler uid false ["GUARDIAN", "TEACHER"]
      ["GUARDIAN", "TEACHER"]
      (User.save uid ["TEACHER", "GUARDIAN"] store).more).guardianMore.count uid
    = 1
  rw [show post_save_user_types_handler uid false ["GUARDIAN", "TEACHER"]
      ["GUARDIAN", "TEACHER"]
      (User.save uid ["TEACHER", "GUARDIAN"] store).more =
      (User.save uid ["TEACHER", "GUARDIAN"] store).more from by
    simp [post_save_user_types_handler]]
  exact hcount1

/-- Witness for C2: user 1 stored with `types=["TEACHER"]` and an empty
GuardianMore table. -/
theorem c2_witness :
    (lookupUser 1 (Store.mk [(1, ["TEACHER"])] emptyDB).users =
      some ["TEACHER"]) ∧
    ((Store.mk [(1, ["TEACHER"])] emptyDB).more.guardianMore.count 1 = 0) ∧
    (((User.save 1 ["TEACHER", "GUARDIAN"]
        (Store.mk [(1, ["TEACHER"])] emptyDB)).more.guardianMore.count 1 = 1) ∧
      ((User.save 1 ["TEACHER", "GUARDIAN"]
          (User.save 1 ["TEACHER", "GUARDIAN"]
            (Store.mk [(1, ["TEACHER"])] emptyDB))).more.guardianMore.count 1
        = 1) ∧
      (∀ (u : UserId) (t p : List String) (d : DB),
        post_save_user_types_handler u false t p
            (post_save_user_types_handler u false t p d) =
          post_save_user_types_handler u false t p d)) :=
  ⟨by decide, by decide,
    c2_guardian_upsert_idempotent 1 (Store.mk [(1, ["TEACHER"])] emptyDB)
      (by decide) (by decide)⟩

/-- C3: when a role code is removed from `types` on update, the table of
any role whose code is absent from the new `types` is left completely
unchanged; in particular updating from `["STUDENT","TEACHER"]` to
`["STUDENT"]` changes nothing at all in the extra-profile state, whether a
TeacherMore row exists or not (the removal branch is a no-op, not an
error). -/
theorem c3_removed_role_rows_untouched (uid : UserId)
    (previousTypes types : List String) (db : DB) (r : TypesChoices)
    (h : r.value ∉ types) :
    ((post_save_user_types_handler uid false types previousTypes db).moreTable r
      = db.moreTable r) ∧
    (post_save_user_types_handler uid false ["STUDENT"]
      ["STUDENT", "TEACHER"] db = db) := by
  constructor
  · by_cases hc : types = previousTypes
    · simp [post_save_user_types_handler, hc]
    · rw [handler_update_moreTable uid types previousTypes db r hc]
      exact if_neg fun hAB =>
        h ((mem_addedCodes types previousTypes r.value).mp hAB.1).1
  · have hadd : addedCodes ["STUDENT"] ["STUDENT", "TEACHER"] = [] := by decide
    rw [handler_update_eq uid _ _ db (by decide), hadd]
    rfl

/-- Witness for C3: user 1 with an existing TeacherMore row, updated from
`["STUDENT","TEACHER"]` to `["STUDENT"]`; the TeacherMore table keeps its
row and the whole state is unchanged. -/
theorem c3_witness :
    (TypesChoices.TEACHER.value ∉ (["STUDENT"] : List String)) ∧
    (((post_save_user_types_handler 1 false ["STUDENT"] ["STUDENT", "TEACHER"]
        (DB.mk [1] [1] [] [] [])).moreTable .TEACHER =
      (DB.mk [1] [1] [] [] []).moreTable .TEACHER) ∧
      (post_save_user_types_handler 1 false ["STUDENT"] ["STUDENT", "TEACHER"]
        (DB.mk [1] [1] [] [] []) = DB.mk [1] [1] [] [] [])) :=
  ⟨by decide,
    c3_removed_role_rows_untouched 1 ["STUDENT", "TEACHER"] ["STUDENT"]
      (DB.mk [1] [1] [] [] []) .TEACHER (by decide)⟩

/-- C4: for every input list, `normalize_types` returns exactly the sorted
(by Python string order), duplicate-free list of those elements that are
recognized role codes — its result is sorted, has no duplicates, and
contains a string iff it is in the input and is a valid code — and the two
concrete examples of the spec hold. -/
theorem c4_normalize_types_spec (l : List String) :
    (normalizeList l).Pairwise (fun a b => strLe a b = true) ∧
    (normalizeList l).Nodup ∧
    (∀ x, x ∈ normalizeList l ↔ x ∈ l ∧ x ∈ validTypes) ∧
    normalizeList ["TEACHER", "BOGUS"] = ["TEACHER"] ∧
    normalizeList ["STUDENT", "STUDENT", "TEACHER"] = ["STUDENT", "TEACHER"] :=
  ⟨normalizeList_sorted l, normalizeList_nodup l,
    fun x => mem_normalizeList l x, by decide, by decide⟩

/-- C5: after `User.save` the persisted `types` (the value downstream
change detection observes) is a fixed point of normalization — sorted,
duplicate-free and made of recognized codes only — and the value
`User.clean` leaves in `types` satisfies the same postcondition. -/
theorem c5_types_normalized_after_save_and_clean (uid : UserId)
    (types : List String) (store : Store) :
    (∃ t, lookupUser uid (User.save uid types store).users = some t ∧
      t = normalizeList t ∧ t.Nodup ∧
      t.Pairwise (fun a b => strLe a b = true) ∧
      ∀ x ∈ t, x ∈ validTypes) ∧
    (User.clean types = normalizeList (User.clean types) ∧
      (User.clean types).Nodup ∧
      (User.clean types).Pairwise (fun a b => strLe a b = true) ∧
      ∀ x ∈ User.clean types, x ∈ validTypes) :=
  ⟨⟨normalizeList types, lookupUser_after_save uid types store,
      (normalizeList_idem types).symm, normalizeList_nodup types,
      normalizeList_sorted types,
      fun x hx => ((mem_normalizeList types x).mp hx).2⟩,
    (normalizeList_idem types).symm, normalizeList_nodup types,
    normalizeList_sorted types,
    fun x hx => ((mem_normalizeList types x).mp hx).2⟩

/-- C6: `normalize_types` is idempotent — renormalizing an already
normalized value (of any argument shape) returns it unchanged. -/
theorem c6_normalize_types_idempotent (t : TypesArg) :
    normalize_types (TypesArg.pyList (normalize_types t)) = normalize_types t := by
  cases t with
  | pyList l => exact normalizeList_idem l
  | pySet s => exact normalizeList_idem s
  | other => decide

/-- C7 (code bug): on a user whose linked extra-profile rows all exist,
`Teacher.more`, `Guardian.more`, `Committee.more` and `Staff.more` return
the linked row, but `Student.more` returns `None` — its body evaluates
`self.studentmore` without a `return` statement — contradicting the spec,
which says every role view exposes an accessor to the role extra-profile
record. -/
theorem c7_student_more_returns_none :
    (Teacher.more ⟨some ⟨1⟩, some ⟨1⟩, some ⟨1⟩, some ⟨1⟩, some ⟨1⟩⟩ = some ⟨1⟩) ∧
    (Guardian.more ⟨some ⟨1⟩, some ⟨1⟩, some ⟨1⟩, some ⟨1⟩, some ⟨1⟩⟩ = some ⟨1⟩) ∧
    (Committee.more ⟨some ⟨1⟩, some ⟨1⟩, some ⟨1⟩, some ⟨1⟩, some ⟨1⟩⟩ = some ⟨1⟩) ∧
    (Staff.more ⟨some ⟨1⟩, some ⟨1⟩, some ⟨1⟩, some ⟨1⟩, some ⟨1⟩⟩ = some ⟨1⟩) ∧
    ((⟨some ⟨1⟩, some ⟨1⟩, some ⟨1⟩, some ⟨1⟩, some ⟨1⟩⟩ :
        RelatedObjects).studentmore = some ⟨1⟩) ∧
    (Student.more ⟨some ⟨1⟩, some ⟨1⟩, some ⟨1⟩, some ⟨1⟩, some ⟨1⟩⟩ = none) := by
  decide

/-- C8: `create_superuser` called with `is_staff=False` fails with the
staff validation error, and called with `is_superuser=False` (and
`is_staff` defaulted) fails with the superuser validation error; in both
cases the result is an error, never a new store, so no User row and no
extra-profile row is written. -/
theorem c8_create_superuser_flag_errors (username : String) (uid : UserId)
    (su : Option Bool) (types : List String) (store : Store) :
    (create_superuser username uid (some false) su types store =
      Except.error "Superuser must have is_staff=True.") ∧
    (create_superuser username uid none (some false) types store =
      Except.error "Superuser must have is_superuser=True.") ∧
    (∀ s : Store,
      create_superuser username uid (some false) su types store ≠
        Except.ok s) := by
  have h1 : create_superuser username uid (some false) su types store =
      Except.error "Superuser must have is_staff=True." := rfl
  exact ⟨h1, rfl, fun s h => by rw [h1] at h; exact Except.noConfusion h⟩

/-- C9: saving a Teacher view instance whose `types` is a non-empty list
lacking the TEACHER code raises a TypeError (the auto-tagging expression
adds two Python sets with `+`) before anything is persisted, while saving
with empty `types` succeeds and persists `types=["TEACHER"]`. -/
theorem c9_teacher_save_type_error (uid : UserId) (types : List String)
    (store : Store) (hne : types ≠ [])
    (ht : TypesChoices.TEACHER.value ∉ types) :
    (Teacher.save uid types store =
      Except.error "TypeError: unsupported operand types for +: set and set") ∧
    (∃ s, Teacher.save uid [] store = Except.ok s ∧
      lookupUser uid s.users = some [TypesChoices.TEACHER.value]) := by
  constructor
  · simp [Teacher.save, hne, ht]
  · refine ⟨User.save uid [TypesChoices.TEACHER.value] store, rfl, ?_⟩
    rw [lookupUser_after_save]
    have : normalizeList [TypesChoices.TEACHER.value] =
        [TypesChoices.TEACHER.value] := by decide
    rw [this]

/-- Witness for C9: `types=["STUDENT"]` on an empty store errors; saving
with empty `types` persists `["TEACHER"]`. -/
theorem c9_witness :
    ((["STUDENT"] : List String) ≠ []) ∧
    (TypesChoices.TEACHER.value ∉ (["STUDENT"] : List String)) ∧
    ((Teacher.save 1 ["STUDENT"] (Store.mk [] emptyDB) =
      Except.error "TypeError: unsupported operand types for +: set and set") ∧
      (∃ s, Teacher.save 1 [] (Store.mk [] emptyDB) = Except.ok s ∧
        lookupUser 1 s.users = some [TypesChoices.TEACHER.value])) :=
  ⟨by decide, by decide,
    c9_teacher_save_type_error 1 ["STUDENT"] (Store.mk [] emptyDB)
      (by decide) (by decide)⟩

/-- C10: `normalize_types` is total over arbitrary argument shapes: an
argument that is neither a list nor a set yields the empty list instead of
raising, and a set argument yields the same normalized list as the list of
its elements — sorted, duplicate-free, containing a string iff it is an
element of the set and a valid role code. -/
theorem c10_normalize_types_total (s : List String) :
    (normalize_types TypesArg.other = []) ∧
    (normalize_types (TypesArg.pySet s) = normalizeList s) ∧
    (∀ x, x ∈ normalize_types (TypesArg.pySet s) ↔ x ∈ s ∧ x ∈ validTypes) ∧
    (normalize_types (TypesArg.pySet s)).Nodup ∧
    (normalize_types (TypesArg.pySet s)).Pairwise
      (fun a b => strLe a b = true) :=
  ⟨by decide, rfl, fun x => mem_normalizeList s x, normalizeList_nodup s,
    normalizeList_sorted s⟩

end Accounts
